import Mathlib

/-!
Verification of the document-loader core: a partitioning client
(UnstructuredWebLoader) that submits bytes to a remote partitioning
service over a multipart HTTP request and normalizes the response into
documents, and an orchestrator (S3Loader) that fetches an object from a
bucket store and delegates to the partitioning client.

The embedding models JavaScript runtime values (JValue), property
access (including the TypeError raised when reading a property of null
or undefined), object spread, template-literal string coercion, and the
FormData/fetch surface the code touches.  Thrown JavaScript errors are
modeled as JSError values carrying the constructor name and message;
every throw site in the source uses the plain Error constructor.
The HTTP exchange is modeled by passing the response explicitly; the
two ways the code observes a response body (response.text and
response.json) are the two body fields of HttpResponse.
JSON numbers are modeled as integers; no claim depends on float
rendering.
-/

/-- A JavaScript runtime value as far as this code observes it.
JSON.parse produces values without the undefined constructor; undefined arises
only from reading an absent property. -/
inductive JValue where
  | undefined
  | null
  | bool (b : Bool)
  | num (n : Int)
  | str (s : String)
  | arr (elems : List JValue)
  | obj (fields : List (String × JValue))

/-- A thrown JavaScript error: constructor name (the error kind) and
message.  Every throw in the two source files is a plain Error, so the
name is "Error" there; the runtime itself throws TypeError. -/
structure JSError where
  name : String
  message : String

/-- Last-binding-wins lookup in an ordered field list.  This is the
value-level semantics both of JS object literals built by spread (later
assignments overwrite) and of JSON.parse on duplicate keys. -/
def lookupLast (k : String) : List (String × JValue) → Option JValue
  | [] => none
  | (k', v) :: rest =>
      match lookupLast k rest with
      | some v' => some v'
      | none => if k' = k then some v else none

/-- Pure property read for the fixed keys this code uses ("text",
"metadata", "type"): objects yield the field or undefined, every other
non-null non-undefined primitive yields undefined. -/
def getFieldPure (v : JValue) (k : String) : JValue :=
  match v with
  | .obj fields => (lookupLast k fields).getD .undefined
  | _ => .undefined

/-- JS property access el[k] as an effectful operation: reading a
property of null or undefined throws a TypeError, everything else
yields getFieldPure. -/
def jsGet (v : JValue) (k : String) : Except JSError JValue :=
  match v with
  | .null => .error ⟨"TypeError", "Cannot read properties of null (reading " ++ k ++ ")"⟩
  | .undefined => .error ⟨"TypeError", "Cannot read properties of undefined (reading " ++ k ++ ")"⟩
  | v => .ok (getFieldPure v k)

/-- Whether a JS value is a string (typeof v === "string"). -/
def isStringVal : JValue → Bool
  | .str _ => true
  | _ => false

def JValue.isNullOrUndefined : JValue → Bool
  | .null => true
  | .undefined => true
  | _ => false

mutual

/-- Template-literal coercion of a value to a string, as in a JS
interpolation.  Objects render as [object Object]; arrays render as
their elements joined with commas, with null and undefined elements
rendering empty, per Array.prototype.join. -/
def jsToString : JValue → String
  | .undefined => "undefined"
  | .null => "null"
  | .bool true => "true"
  | .bool false => "false"
  | .num n => toString n
  | .str s => s
  | .obj _ => "[object Object]"
  | .arr xs => String.intercalate "," (jsArrayItems xs)

def jsArrayItems : List JValue → List String
  | [] => []
  | v :: vs => (if v.isNullOrUndefined then "" else jsToString v) :: jsArrayItems vs

end

/-- Object spread {...v} in an object literal: own enumerable
properties.  Objects contribute their fields; strings and arrays
contribute their index properties; null, undefined, booleans and
numbers contribute nothing. -/
def spreadFields : JValue → List (String × JValue)
  | .obj fields => fields
  | .str s => s.data.enum.map fun p => (toString p.1, JValue.str p.2.toString)
  | .arr xs => xs.enum.map fun p => (toString p.1, p.2)
  | _ => []

/-- Document as constructed by the loader: pageContent plus a metadata
object kept as an ordered field list. -/
structure Document where
  pageContent : String
  metadata : List (String × JValue)

/-- Attribute lookup on a produced document, with JS object semantics
(later bindings overwrite earlier ones). -/
def attrGet (d : Document) (k : String) : Option JValue :=
  lookupLast k d.metadata

/-- The split of a JS string on the single-character separator c, as
String.prototype.split: always at least one piece, empty pieces kept. -/
def splitCharAux (c : Char) : List Char → List (List Char)
  | [] => [[]]
  | x :: xs =>
      match splitCharAux c xs with
      | [] => [[]]
      | r :: rs => if x = c then [] :: (r :: rs) else (x :: r) :: rs

/-- this.filePath.split("/").pop(): the final path segment of the
file path (split never returns an empty array, so pop is total). -/
def jsFileName (filePath : String) : String :=
  ((splitCharAux '/' filePath.data).map String.mk).getLastD ""

/-- One entry of the multipart form body: either a plain string field
or a binary file part carrying content bytes and a filename. -/
inductive FormEntry where
  | field (fieldName value : String)
  | file (fieldName : String) (content : List Nat) (filename : String)

/-- The outgoing partitioning request: endpoint URL, multipart form
entries in append order, and headers. -/
structure PartitionRequest where
  url : String
  formData : List FormEntry
  headers : List (String × String)

/-- The options object accepted by the UnstructuredWebLoader
constructor; absent properties are none. -/
structure UnstructuredLoaderOptions where
  apiKey : Option String := none
  apiUrl : Option String := none
  strategy : Option String := none
  encoding : Option String := none
  ocrLanguages : Option (List String) := none
  coordinates : Option Bool := none
  pdfInferTableStructure : Option Bool := none
  xmlKeepTags : Option Bool := none

/-- The UnstructuredWebLoader instance state after construction. -/
structure UnstructuredWebLoader where
  filePath : String
  buffer : List Nat
  apiUrl : String
  apiKey : Option String
  strategy : String
  encoding : Option String
  ocrLanguages : List String
  coordinates : Option Bool
  pdfInferTableStructure : Option Bool
  xmlKeepTags : Option Bool

/-- The constructor: field defaults and the nullish-coalescing
assignments (x ?? default) of the source constructor. -/
def mkUnstructuredWebLoader (filePath : String) (buffer : List Nat)
    (options : UnstructuredLoaderOptions) : UnstructuredWebLoader where
  filePath := filePath
  buffer := buffer
  apiUrl := options.apiUrl.getD "https://api.unstructured.io/general/v0/general"
  apiKey := options.apiKey
  strategy := options.strategy.getD "hi_res"
  encoding := options.encoding
  ocrLanguages := options.ocrLanguages.getD []
  coordinates := options.coordinates
  pdfInferTableStructure := options.pdfInferTableStructure
  xmlKeepTags := options.xmlKeepTags

/-- The FormData built by _partition, entry by entry in append order:
the file part under the form field "files" carrying the buffer and the
trimmed filename, the strategy, one repeated ocr_languages entry per
language, then encoding (if truthy) and the three boolean flags (if
strictly true, as the literal string "true"). -/
def UnstructuredWebLoader.buildFormData (l : UnstructuredWebLoader) : List FormEntry :=
  [FormEntry.file "files" l.buffer (jsFileName l.filePath),
   FormEntry.field "strategy" l.strategy]
  ++ l.ocrLanguages.map (fun language => FormEntry.field "ocr_languages" language)
  ++ (match l.encoding with
      | some e => if e = "" then [] else [FormEntry.field "encoding" e]
      | none => [])
  ++ (if l.coordinates = some true then [FormEntry.field "coordinates" "true"] else [])
  ++ (if l.pdfInferTableStructure = some true
      then [FormEntry.field "pdf_infer_table_structure" "true"] else [])
  ++ (if l.xmlKeepTags = some true then [FormEntry.field "xml_keep_tags" "true"] else [])

/-- The full outgoing request of _partition: the configured URL, the
form body, and the credential header (empty string when no key). -/
def UnstructuredWebLoader.buildRequest (l : UnstructuredWebLoader) : PartitionRequest where
  url := l.apiUrl
  formData := l.buildFormData
  headers := [("UNSTRUCTURED-API-KEY", l.apiKey.getD "")]

/-- The template-literal message thrown by _partition on a non-2xx
status: file path, status code and full response body text. -/
def partitionFailMsg (filePath : String) (status : Nat) (body : String) : String :=
  "Failed to partition file " ++ filePath ++ " with error " ++ toString status
    ++ " and message " ++ body

/-- The template-literal message thrown by _partition when the parsed
body is not an array. -/
def nonArrayMsg (v : JValue) : String :=
  "Expected partitioning request to return an array, but got " ++ jsToString v

/-- The fetch response as observed by _partition: status, the body as
text (response.text) and the body as parsed JSON (response.json, which
rejects on invalid JSON). -/
structure HttpResponse where
  status : Nat
  bodyText : String
  bodyJson : Except String JValue

/-- response.ok: status in the inclusive range 200..299. -/
def HttpResponse.ok (r : HttpResponse) : Bool :=
  decide (200 ≤ r.status ∧ r.status ≤ 299)

/-- The predicate of the source filter, el => typeof el.text ===
"string", as an effectful evaluation (it throws on null entries). -/
def isTextString (el : JValue) : Except JSError Bool :=
  (jsGet el "text").map isStringVal

/-- elements.filter(el => typeof el.text === "string"), evaluating the
predicate left to right and propagating a thrown TypeError. -/
def filterTextElements : List JValue → Except JSError (List JValue)
  | [] => .ok []
  | el :: rest =>
      match isTextString el with
      | .error e => .error e
      | .ok b =>
          match filterTextElements rest with
          | .error e => .error e
          | .ok tail => .ok (if b then el :: tail else tail)

/-- _partition applied to the response of its single POST: on a
non-2xx status throw the partition-failure Error; otherwise parse the
body, throw on a non-array value, and filter to elements whose text is
a string. -/
def UnstructuredWebLoader._partition (l : UnstructuredWebLoader)
    (r : HttpResponse) : Except JSError (List JValue) :=
  if r.ok then
    match r.bodyJson with
    | .error e => .error ⟨"SyntaxError", e⟩
    | .ok (JValue.arr els) => filterTextElements els
    | .ok elements => .error ⟨"Error", nonArrayMsg elements⟩
  else
    .error ⟨"Error", partitionFailMsg l.filePath r.status r.bodyText⟩

/-- The loop body of load: destructure metadata and text from the
element, and when text is a string push a Document whose metadata is
the spread of the element metadata followed by the synthesized
category key set to element.type. -/
def elementsToDocs : List JValue → Except JSError (List Document)
  | [] => .ok []
  | el :: rest =>
      match jsGet el "metadata" with
      | .error e => .error e
      | .ok metadata =>
          match jsGet el "text" with
          | .error e => .error e
          | .ok (.str t) =>
              match jsGet el "type" with
              | .error e => .error e
              | .ok typ =>
                  match elementsToDocs rest with
                  | .error e => .error e
                  | .ok docs =>
                      .ok ({ pageContent := t,
                             metadata := spreadFields metadata ++ [("category", typ)] } :: docs)
          | .ok _ => elementsToDocs rest

/-- UnstructuredWebLoader.load: run _partition on the response, then
map the retained elements to Documents. -/
def UnstructuredWebLoader.load (l : UnstructuredWebLoader)
    (r : HttpResponse) : Except JSError (List Document) :=
  match l._partition r with
  | .error e => .error e
  | .ok elements => elementsToDocs elements

/-- The template-literal message thrown by S3Loader.load when the
get-object stage fails: key, bucket and the cause message. -/
def downloadFailMsg (key bucket causeMsg : String) : String :=
  "Failed to download file " ++ key ++ " from S3 bucket " ++ bucket ++ ": " ++ causeMsg

/-- The fixed message thrown by S3Loader.load when the partitioning
stage fails; the caught error is discarded by the bare catch. -/
def loaderFailMsg (filePath : String) : String :=
  "Failed to load file " ++ filePath ++ " using unstructured loader."

/-- The S3Loader instance state after construction (the s3Config and
the injected loader class are the collaborators abstracted below). -/
structure S3Loader where
  bucket : String
  key : String
  unstructuredAPIURL : String
  unstructuredAPIKey : String

/-- The options object the orchestrator passes to the injected
partitioning loader. -/
def S3Loader.loaderOptions (s : S3Loader) : UnstructuredLoaderOptions :=
  { apiUrl := some s.unstructuredAPIURL, apiKey := some s.unstructuredAPIKey }

/-- The observable outcome of one S3Loader.load call: the returned or
thrown result, the (bucket, key) get-object requests issued, and the
logical file names handed to the partitioning stage. -/
structure LoadOutcome where
  result : Except JSError (List Document)
  fetched : List (String × String)
  partitioned : List String

/-- S3Loader.load: stage 1 issues one get-object request for
(this.bucket, this.key); any failure there is rethrown as the
download Error naming key, bucket and the cause message, and the
partitioning stage is never reached.  Stage 2 hands the bytes and the
key (as filePath) to the injected loader; any failure there is
rethrown as the fixed loader Error naming only the file path (the
catch discards the caught error). -/
def S3Loader.load (s : S3Loader)
    (getObject : String → String → Except JSError (List Nat))
    (loaderLoad : String → List Nat → UnstructuredLoaderOptions → Except JSError (List Document)) :
    LoadOutcome :=
  let filePath := s.key
  match getObject s.bucket s.key with
  | .error e =>
      { result := .error ⟨"Error", downloadFailMsg s.key s.bucket e.message⟩,
        fetched := [(s.bucket, s.key)],
        partitioned := [] }
  | .ok objectData =>
      match loaderLoad filePath objectData s.loaderOptions with
      | .ok docs =>
          { result := .ok docs,
            fetched := [(s.bucket, s.key)],
            partitioned := [filePath] }
      | .error _ =>
          { result := .error ⟨"Error", loaderFailMsg filePath⟩,
            fetched := [(s.bucket, s.key)],
            partitioned := [filePath] }

/-- S3Loader.load with the default injected loader class, the
UnstructuredWebLoader itself, the partitioning response being the one
the remote service returns. -/
def S3Loader.loadDefault (s : S3Loader)
    (getObject : String → String → Except JSError (List Nat))
    (response : HttpResponse) : LoadOutcome :=
  s.load getObject (fun filePath buffer options =>
    (mkUnstructuredWebLoader filePath buffer options).load response)

/-! ### Specification-side vocabulary

Pure observations used to state the claims: the retained-element
predicate, the record an element maps to, per-field projections of the
multipart body, and substring containment. -/

/-- An element is retained when its text property is a string. -/
def hasStringText (el : JValue) : Bool :=
  isStringVal (getFieldPure el "text")

/-- The text of a retained element. -/
def textOf (el : JValue) : String :=
  match getFieldPure el "text" with
  | .str s => s
  | _ => ""

/-- The Output Record a retained element maps to: content is the text,
attributes are the spread element metadata followed by the synthesized
category key holding the element type. -/
def specRecord (el : JValue) : Document where
  pageContent := textOf el
  metadata := spreadFields (getFieldPure el "metadata")
      ++ [("category", getFieldPure el "type")]

/-- The values of all plain string fields with the given name, in form
order. -/
def fieldValues (entries : List FormEntry) (name : String) : List String :=
  entries.filterMap fun e =>
    match e with
    | .field n v => if n = name then some v else none
    | .file _ _ _ => none

/-- All binary file parts of the form: (field name, content, filename),
in form order. -/
def fileParts (entries : List FormEntry) : List (String × List Nat × String) :=
  entries.filterMap fun e =>
    match e with
    | .file n c fn => some (n, c, fn)
    | .field _ _ => none

/-- Substring containment of strings. -/
def strContains (s sub : String) : Prop :=
  ∃ pre post, s = pre ++ sub ++ post

/-- The error kind of a partitioning or load result, when it failed. -/
def errNameOf : Except JSError (List Document) → Option String
  | .error e => some e.name
  | .ok _ => none

/-- Array.isArray. -/
def JValue.isArray : JValue → Bool
  | .arr _ => true
  | _ => false

/-- The values whose object spread contributes no keys: undefined
(absent), null, booleans and numbers.  Strings and arrays do
contribute their index properties. -/
def spreadsNothing : JValue → Bool
  | .undefined => true
  | .null => true
  | .bool _ => true
  | .num _ => true
  | _ => false

/-! ### Refinement lemmas: the effectful pipeline against the pure
filter-and-map description, for arrays of non-null elements. -/

lemma jsGet_not_null (el : JValue) (h : el.isNullOrUndefined = false) (k : String) :
    jsGet el k = .ok (getFieldPure el k) := by
  cases el <;> simp_all [jsGet, JValue.isNullOrUndefined]

lemma isTextString_eq (el : JValue) (h : el.isNullOrUndefined = false) :
    isTextString el = .ok (hasStringText el) := by
  simp [isTextString, jsGet_not_null el h, hasStringText, Except.map]

lemma filterTextElements_eq (els : List JValue)
    (h : ∀ el ∈ els, el.isNullOrUndefined = false) :
    filterTextElements els = .ok (els.filter hasStringText) := by
  induction els with
  | nil => rfl
  | cons el rest ih =>
      have hel := h el (List.mem_cons_self el rest)
      have hrest := ih fun e he => h e (List.mem_cons_of_mem el he)
      simp [filterTextElements, isTextString_eq el hel, hrest, List.filter_cons]

lemma elementsToDocs_eq (els : List JValue)
    (h : ∀ el ∈ els, el.isNullOrUndefined = false) :
    elementsToDocs els = .ok ((els.filter hasStringText).map specRecord) := by
  induction els with
  | nil => rfl
  | cons el rest ih =>
      have hel := h el (List.mem_cons_self el rest)
      have hrest := ih fun e he => h e (List.mem_cons_of_mem el he)
      cases hx : getFieldPure el "text" <;>
        simp_all [elementsToDocs, jsGet_not_null el hel, hrest, List.filter_cons,
          hasStringText, isStringVal, hx, specRecord, textOf]

lemma load_eval (l : UnstructuredWebLoader) (r : HttpResponse) (els : List JValue)
    (hok : r.ok = true) (hjson : r.bodyJson = .ok (.arr els))
    (h : ∀ el ∈ els, el.isNullOrUndefined = false) :
    l.load r = .ok ((els.filter hasStringText).map specRecord) := by
  have h1 : l._partition r = .ok (els.filter hasStringText) := by
    simp [UnstructuredWebLoader._partition, hok, hjson, filterTextElements_eq els h]
  have h2 := elementsToDocs_eq (els.filter hasStringText)
    (fun el hel => h el (List.mem_of_mem_filter hel))
  have h3 : (els.filter hasStringText).filter hasStringText = els.filter hasStringText :=
    List.filter_eq_self.mpr fun a ha => List.of_mem_filter ha
  rw [h3] at h2
  simp [UnstructuredWebLoader.load, h1, h2]

/-! ### Attribute-merge lemmas: the synthesized category binding wins,
other keys fall through to the spread metadata. -/

lemma lookupLast_append_same (k : String) (v : JValue) (l : List (String × JValue)) :
    lookupLast k (l ++ [(k, v)]) = some v := by
  induction l with
  | nil => simp [lookupLast]
  | cons p rest ih => simp [lookupLast, ih]

lemma lookupLast_append_other (k k' : String) (h : k' ≠ k) (v : JValue)
    (l : List (String × JValue)) :
    lookupLast k' (l ++ [(k, v)]) = lookupLast k' l := by
  induction l with
  | nil => simp [lookupLast, Ne.symm h]
  | cons p rest ih => simp [lookupLast, ih]

/-- The two stage-failure messages of S3Loader.load can never collide:
they differ at character index 10 whatever the suffixes are. -/
lemma download_msg_ne_load_msg (a b : String) :
    "Failed to download file " ++ a ≠ "Failed to load file " ++ b := by
  intro h
  have hd := congrArg String.data h
  rw [String.data_append, String.data_append] at hd
  have h1 : ("Failed to download file ".data ++ a.data)[10]? = some 'd' := by
    rw [List.getElem?_append_left (by decide)]
    decide
  have h2 : ("Failed to load file ".data ++ b.data)[10]? = some 'l' := by
    rw [List.getElem?_append_left (by decide)]
    decide
  rw [hd, h2] at h1
  exact absurd h1 (by decide)

example :
    (mkUnstructuredWebLoader "doc.pdf" [] {}).load
      ⟨200, "",
        .ok (.arr
          [.obj [("type", .str "Title"), ("text", .str "Hello"),
                 ("metadata", .obj [("page", .num 1)])],
           .obj [("type", .str "Marker")]])⟩
      = .ok [⟨"Hello", [("page", .num 1), ("category", .str "Title")]⟩] := rfl

example :
    (mkUnstructuredWebLoader "doc.pdf" [] {}).load ⟨200, "", .ok (.arr [.null])⟩
      = .error ⟨"TypeError", "Cannot read properties of null (reading text)"⟩ := rfl

example :
    (mkUnstructuredWebLoader "doc.pdf" [] {}).load ⟨500, "bad file", .error "nope"⟩
      = .error ⟨"Error", "Failed to partition file doc.pdf with error 500 and message bad file"⟩ := rfl

example :
    (mkUnstructuredWebLoader "doc.pdf" [] {}).load ⟨200, "", .ok (.obj [("foo", .str "bar")])⟩
      = .error ⟨"Error", "Expected partitioning request to return an array, but got [object Object]"⟩ := rfl


lemma spreadFields_eq_nil (v : JValue) (h : spreadsNothing v = true) :
    spreadFields v = [] := by
  cases v <;> simp_all [spreadsNothing, spreadFields]

lemma all_not_nullOrUndef (els : List JValue)
    (h : els.all (fun el => !el.isNullOrUndefined) = true) :
    ∀ el ∈ els, el.isNullOrUndefined = false := by
  intro el hel
  have := List.all_eq_true.mp h el hel
  simpa using this

/-! ### The split used for the wire filename never keeps the
separator, so for a path-like name the wire filename is a proper
trim of it. -/

lemma splitCharAux_ne_nil (c : Char) (l : List Char) : splitCharAux c l ≠ [] := by
  cases l with
  | nil => simp [splitCharAux]
  | cons x xs =>
      simp only [splitCharAux]
      split
      · simp
      · split <;> simp

lemma mem_splitCharAux_not_mem (c : Char) (l : List Char) :
    ∀ p ∈ splitCharAux c l, c ∉ p := by
  induction l with
  | nil =>
      intro p hp
      simp [splitCharAux] at hp
      simp [hp]
  | cons x xs ih =>
      intro p hp
      simp only [splitCharAux] at hp
      cases hs : splitCharAux c xs with
      | nil => exact absurd hs (splitCharAux_ne_nil c xs)
      | cons r rs =>
          rw [hs] at hp
          by_cases hx : x = c
          · simp [hx] at hp
            rcases hp with hp | hp | hp
            · simp [hp]
            · exact ih p (by rw [hs, hp]; exact List.mem_cons_self r rs)
            · exact ih p (by rw [hs]; exact List.mem_cons_of_mem r hp)
          · simp [hx] at hp
            rcases hp with hp | hp
            · subst hp
              intro hc
              rcases List.mem_cons.mp hc with hc | hc
              · exact hx hc.symm
              · exact ih r (by rw [hs]; exact List.mem_cons_self r rs) hc
            · exact ih p (by rw [hs]; exact List.mem_cons_of_mem r hp)

lemma getLastD_mem {α : Type} (l : List α) (d : α) (h : l ≠ []) :
    l.getLastD d ∈ l := by
  induction l with
  | nil => exact absurd rfl h
  | cons a t ih =>
      cases t with
      | nil => simp [List.getLastD]
      | cons b t' =>
          rw [List.getLastD_cons]
          right
          exact ih (by simp)

/-- The wire filename never contains the path separator. -/
lemma jsFileName_no_slash (filePath : String) : '/' ∉ (jsFileName filePath).data := by
  unfold jsFileName
  have hne : (splitCharAux '/' filePath.data).map String.mk ≠ [] := by
    intro hmap
    exact splitCharAux_ne_nil '/' filePath.data (List.map_eq_nil_iff.mp hmap)
  have hmem := getLastD_mem ((splitCharAux '/' filePath.data).map String.mk) "" hne
  rcases List.mem_map.mp hmem with ⟨p, hp, hpeq⟩
  rw [← hpeq]
  exact mem_splitCharAux_not_mem '/' filePath.data p hp

/-! ## Claim theorems -/

/-- C1, counterexample: the claim says elements lacking a string text
are dropped silently without raising an error, for every 2xx response
whose body deserializes to an array.  A 2xx response whose body is the
array containing null is such a response and null lacks a string text,
yet load raises a TypeError (reading .text on null throws in the
filter), instead of dropping the element and returning zero records. -/
theorem C1_counterexample :
    (mkUnstructuredWebLoader "doc.pdf" [] {}).load ⟨200, "[null]", .ok (.arr [.null])⟩
      = .error ⟨"TypeError", "Cannot read properties of null (reading text)"⟩ := rfl

/-- C1, amended: for every 2xx response whose body deserializes to an
array of non-null (and non-undefined) values, load returns exactly one
Output Record per element whose text field is a string, in order, with
the record content equal to that element text; such elements lacking a
string text are dropped silently.  (A null element instead raises a
TypeError, per the counterexample.) -/
theorem C1_theorem (l : UnstructuredWebLoader) (r : HttpResponse) (els : List JValue)
    (hok : r.ok = true) (hjson : r.bodyJson = .ok (.arr els))
    (h : els.all (fun el => !el.isNullOrUndefined) = true) :
    l.load r = .ok ((els.filter hasStringText).map specRecord)
    ∧ ((els.filter hasStringText).map specRecord).map Document.pageContent
        = (els.filter hasStringText).map textOf := by
  refine ⟨load_eval l r els hok hjson (all_not_nullOrUndef els h), ?_⟩
  simp [List.map_map]
  exact fun a _ _ => rfl

/-- C1 witness: the spec headline example.  The mocked 200 body with a
Title element and a text-less Marker element yields exactly the single
record with content Hello and attributes page 1, category Title. -/
theorem C1_witness :
    (HttpResponse.ok ⟨200, "resp",
        .ok (.arr
          [.obj [("type", .str "Title"), ("text", .str "Hello"),
                 ("metadata", .obj [("page", .num 1)])],
           .obj [("type", .str "Marker")]])⟩ = true)
    ∧ (([JValue.obj [("type", .str "Title"), ("text", .str "Hello"),
                     ("metadata", .obj [("page", .num 1)])],
         JValue.obj [("type", .str "Marker")]].all
            (fun el => !el.isNullOrUndefined)) = true)
    ∧ ((mkUnstructuredWebLoader "doc.pdf" [] {}).load
        ⟨200, "resp",
          .ok (.arr
            [.obj [("type", .str "Title"), ("text", .str "Hello"),
                   ("metadata", .obj [("page", .num 1)])],
             .obj [("type", .str "Marker")]])⟩
        = .ok [⟨"Hello", [("page", .num 1), ("category", .str "Title")]⟩]) := by
  refine ⟨rfl, rfl, ?_⟩
  exact (C1_theorem (mkUnstructuredWebLoader "doc.pdf" [] {})
    ⟨200, "resp",
      .ok (.arr
        [.obj [("type", .str "Title"), ("text", .str "Hello"),
               ("metadata", .obj [("page", .num 1)])],
         .obj [("type", .str "Marker")]])⟩
    [.obj [("type", .str "Title"), ("text", .str "Hello"),
           ("metadata", .obj [("page", .num 1)])],
     .obj [("type", .str "Marker")]] rfl rfl rfl).1

/-- C4: on every response with a non-success HTTP status, the
partition stage fails with the request Error whose message carries the
logical file name, the status code and the full response body text. -/
theorem C4_theorem (l : UnstructuredWebLoader) (r : HttpResponse)
    (h : r.ok = false) :
    l.load r = .error ⟨"Error", partitionFailMsg l.filePath r.status r.bodyText⟩
    ∧ strContains (partitionFailMsg l.filePath r.status r.bodyText) l.filePath
    ∧ strContains (partitionFailMsg l.filePath r.status r.bodyText) (toString r.status)
    ∧ strContains (partitionFailMsg l.filePath r.status r.bodyText) r.bodyText := by
  refine ⟨?_, ?_, ?_, ?_⟩
  · simp [UnstructuredWebLoader.load, UnstructuredWebLoader._partition, h]
  · exact ⟨"Failed to partition file ",
      " with error " ++ toString r.status ++ " and message " ++ r.bodyText,
      by simp [partitionFailMsg, String.append_assoc]⟩
  · exact ⟨"Failed to partition file " ++ l.filePath ++ " with error ",
      " and message " ++ r.bodyText,
      by simp [partitionFailMsg, String.append_assoc]⟩
  · exact ⟨"Failed to partition file " ++ l.filePath ++ " with error "
        ++ toString r.status ++ " and message ", "",
      by simp [partitionFailMsg, String.append_assoc]⟩

/-- C4 witness: a mocked 500 response with body bad file fails with
the Error whose message names doc.pdf, 500 and bad file. -/
theorem C4_witness :
    (HttpResponse.ok ⟨500, "bad file", .error "invalid json"⟩ = false)
    ∧ ((mkUnstructuredWebLoader "doc.pdf" [] {}).load ⟨500, "bad file", .error "invalid json"⟩
        = .error ⟨"Error",
            "Failed to partition file doc.pdf with error 500 and message bad file"⟩)
    ∧ strContains "Failed to partition file doc.pdf with error 500 and message bad file" "doc.pdf"
    ∧ strContains "Failed to partition file doc.pdf with error 500 and message bad file" "500"
    ∧ strContains "Failed to partition file doc.pdf with error 500 and message bad file" "bad file" := by
  have h := C4_theorem (mkUnstructuredWebLoader "doc.pdf" [] {})
    ⟨500, "bad file", .error "invalid json"⟩ rfl
  exact ⟨rfl, h.1, h.2.1, h.2.2.1, h.2.2.2⟩

/-- C5: on every 2xx response whose parsed body is not an array, load
fails with the shape Error whose message renders what was actually
received, and no records are returned (the result is an error). -/
theorem C5_theorem (l : UnstructuredWebLoader) (r : HttpResponse) (v : JValue)
    (hok : r.ok = true) (hjson : r.bodyJson = .ok v) (hv : v.isArray = false) :
    l.load r = .error ⟨"Error", nonArrayMsg v⟩
    ∧ strContains (nonArrayMsg v) (jsToString v)
    ∧ errNameOf (l.load r) = some "Error" := by
  have h1 : l.load r = .error ⟨"Error", nonArrayMsg v⟩ := by
    cases v <;>
      simp_all [UnstructuredWebLoader.load, UnstructuredWebLoader._partition,
        JValue.isArray]
  refine ⟨h1, ⟨"Expected partitioning request to return an array, but got ", "", ?_⟩, ?_⟩
  · simp [nonArrayMsg]
  · simp [h1, errNameOf]

/-- C5 witness: a mocked 200 response with the non-array body
containing key foo fails with the shape Error rendering the received
object. -/
theorem C5_witness :
    (HttpResponse.ok ⟨200, "resp", .ok (.obj [("foo", .str "bar")])⟩ = true)
    ∧ (JValue.isArray (.obj [("foo", .str "bar")]) = false)
    ∧ ((mkUnstructuredWebLoader "doc.pdf" [] {}).load
          ⟨200, "resp", .ok (.obj [("foo", .str "bar")])⟩
        = .error ⟨"Error",
            "Expected partitioning request to return an array, but got [object Object]"⟩)
    ∧ strContains "Expected partitioning request to return an array, but got [object Object]"
        "[object Object]" := by
  have h := C5_theorem (mkUnstructuredWebLoader "doc.pdf" [] {})
    ⟨200, "resp", .ok (.obj [("foo", .str "bar")])⟩ (.obj [("foo", .str "bar")]) rfl rfl rfl
  exact ⟨rfl, rfl, h.1, h.2.1⟩

/-- C6: whenever the store fetch fails, S3Loader.load fails with the
download Error whose message names the key, the bucket (store
identifier) and the underlying cause message, and no partitioning
invocation is ever issued in that call. -/
theorem C6_theorem (s : S3Loader)
    (getObject : String → String → Except JSError (List Nat))
    (loaderLoad : String → List Nat → UnstructuredLoaderOptions → Except JSError (List Document))
    (e : JSError) (h : getObject s.bucket s.key = .error e) :
    (s.load getObject loaderLoad).result
        = .error ⟨"Error", downloadFailMsg s.key s.bucket e.message⟩
    ∧ strContains (downloadFailMsg s.key s.bucket e.message) s.key
    ∧ strContains (downloadFailMsg s.key s.bucket e.message) s.bucket
    ∧ strContains (downloadFailMsg s.key s.bucket e.message) e.message
    ∧ (s.load getObject loaderLoad).partitioned = [] := by
  refine ⟨?_, ?_, ?_, ?_, ?_⟩
  · simp [S3Loader.load, h]
  · exact ⟨"Failed to download file ",
      " from S3 bucket " ++ s.bucket ++ ": " ++ e.message,
      by simp [downloadFailMsg, String.append_assoc]⟩
  · exact ⟨"Failed to download file " ++ s.key ++ " from S3 bucket ",
      ": " ++ e.message,
      by simp [downloadFailMsg, String.append_assoc]⟩
  · exact ⟨"Failed to download file " ++ s.key ++ " from S3 bucket " ++ s.bucket ++ ": ",
      "",
      by simp [downloadFailMsg, String.append_assoc]⟩
  · simp [S3Loader.load, h]

/-- C6 witness: an access-denied fetch yields the download Error
naming key, bucket and cause, with zero partitioning calls. -/
theorem C6_witness :
    ((fun (_ : String) (_ : String) =>
        (Except.error ⟨"Error", "Access Denied"⟩ : Except JSError (List Nat)))
      "my-bucket" "dir/report.pdf" = .error ⟨"Error", "Access Denied"⟩)
    ∧ ((S3Loader.load ⟨"my-bucket", "dir/report.pdf", "https://api.example", "key"⟩
          (fun _ _ => .error ⟨"Error", "Access Denied"⟩) (fun _ _ _ => .ok [])).result
        = .error ⟨"Error",
            "Failed to download file dir/report.pdf from S3 bucket my-bucket: Access Denied"⟩)
    ∧ strContains "Failed to download file dir/report.pdf from S3 bucket my-bucket: Access Denied"
        "dir/report.pdf"
    ∧ strContains "Failed to download file dir/report.pdf from S3 bucket my-bucket: Access Denied"
        "my-bucket"
    ∧ strContains "Failed to download file dir/report.pdf from S3 bucket my-bucket: Access Denied"
        "Access Denied"
    ∧ ((S3Loader.load ⟨"my-bucket", "dir/report.pdf", "https://api.example", "key"⟩
          (fun _ _ => .error ⟨"Error", "Access Denied"⟩) (fun _ _ _ => .ok [])).partitioned
        = []) := by
  have h := C6_theorem ⟨"my-bucket", "dir/report.pdf", "https://api.example", "key"⟩
    (fun _ _ => .error ⟨"Error", "Access Denied"⟩) (fun _ _ _ => .ok [])
    ⟨"Error", "Access Denied"⟩ rfl
  exact ⟨rfl, h.1, h.2.1, h.2.2.1, h.2.2.2.1, h.2.2.2.2⟩

/-- C10: every partitioning-stage failure of S3Loader.load is
rethrown as the fixed-template Error naming only the file path: the
conclusion does not depend on the underlying error e at all (the bare
catch discards it), and the thrown Error carries no cause field, so no
status code or response body is recoverable from it. -/
theorem C10_theorem (s : S3Loader)
    (getObject : String → String → Except JSError (List Nat))
    (loaderLoad : String → List Nat → UnstructuredLoaderOptions → Except JSError (List Document))
    (data : List Nat) (e : JSError)
    (hfetch : getObject s.bucket s.key = .ok data)
    (hpart : loaderLoad s.key data s.loaderOptions = .error e) :
    (s.load getObject loaderLoad).result = .error ⟨"Error", loaderFailMsg s.key⟩ := by
  simp [S3Loader.load, hfetch, hpart]

/-- C10 witness: a partitioning failure carrying full HTTP detail
(status 500, body text) is reduced to the fixed template naming only
the file path. -/
theorem C10_witness :
    ((fun (_ : String) (_ : String) => (Except.ok [] : Except JSError (List Nat)))
        "b" "k" = .ok [])
    ∧ ((fun (_ : String) (_ : List Nat) (_ : UnstructuredLoaderOptions) =>
          (Except.error
            ⟨"Error", "Failed to partition file k with error 500 and message bad file"⟩
            : Except JSError (List Document)))
        "k" [] (S3Loader.loaderOptions ⟨"b", "k", "u", "a"⟩)
        = .error ⟨"Error", "Failed to partition file k with error 500 and message bad file"⟩)
    ∧ ((S3Loader.load ⟨"b", "k", "u", "a"⟩ (fun _ _ => .ok [])
          (fun _ _ _ => .error
            ⟨"Error", "Failed to partition file k with error 500 and message bad file"⟩)).result
        = .error ⟨"Error", "Failed to load file k using unstructured loader."⟩) := by
  have h := C10_theorem ⟨"b", "k", "u", "a"⟩ (fun _ _ => .ok [])
    (fun _ _ _ => .error
      ⟨"Error", "Failed to partition file k with error 500 and message bad file"⟩)
    [] ⟨"Error", "Failed to partition file k with error 500 and message bad file"⟩ rfl rfl
  exact ⟨rfl, rfl, h⟩

/-- C3, counterexample: the claim says the partitioning-stage error is
distinguishable by kind (not merely by message) from the retrieval
error.  But both throw sites construct a plain Error, so at this
concrete input the retrieval-failure error and the partitioning-stage
error have the same kind, Error: no by-kind distinction exists. -/
theorem C3_counterexample :
    errNameOf ((S3Loader.load ⟨"b", "k", "u", "a"⟩
        (fun _ _ => .error ⟨"Error", "network down"⟩)
        (fun _ _ _ => .error ⟨"Error", "partition detail"⟩)).result) = some "Error"
    ∧ errNameOf ((S3Loader.load ⟨"b", "k", "u", "a"⟩
        (fun _ _ => .ok [])
        (fun _ _ _ => .error ⟨"Error", "partition detail"⟩)).result) = some "Error" :=
  ⟨rfl, rfl⟩

/-- C3, amended: on a successful retrieval whose partitioning stage
fails, load fails with the Error carrying the fixed loader-failure
message; a retrieval failure carries the download message instead.
The two errors have the same kind (both plain Error), and they are
distinguishable only by message text: the two message templates can
never produce equal strings. -/
theorem C3_theorem (s s' : S3Loader)
    (getObject getObject' : String → String → Except JSError (List Nat))
    (loaderLoad loaderLoad' : String → List Nat → UnstructuredLoaderOptions → Except JSError (List Document))
    (data : List Nat) (e e' : JSError)
    (h1 : getObject s.bucket s.key = .ok data)
    (h2 : loaderLoad s.key data s.loaderOptions = .error e)
    (h3 : getObject' s'.bucket s'.key = .error e') :
    (s.load getObject loaderLoad).result = .error ⟨"Error", loaderFailMsg s.key⟩
    ∧ (s'.load getObject' loaderLoad').result
        = .error ⟨"Error", downloadFailMsg s'.key s'.bucket e'.message⟩
    ∧ errNameOf ((s.load getObject loaderLoad).result)
        = errNameOf ((s'.load getObject' loaderLoad').result)
    ∧ loaderFailMsg s.key ≠ downloadFailMsg s'.key s'.bucket e'.message := by
  have hA : (s.load getObject loaderLoad).result = .error ⟨"Error", loaderFailMsg s.key⟩ := by
    simp [S3Loader.load, h1, h2]
  have hB : (s'.load getObject' loaderLoad').result
      = .error ⟨"Error", downloadFailMsg s'.key s'.bucket e'.message⟩ := by
    simp [S3Loader.load, h3]
  refine ⟨hA, hB, by simp [hA, hB, errNameOf], ?_⟩
  intro heq
  apply download_msg_ne_load_msg
    (s'.key ++ (" from S3 bucket " ++ (s'.bucket ++ (": " ++ e'.message))))
    (s.key ++ " using unstructured loader.")
  calc "Failed to download file "
        ++ (s'.key ++ (" from S3 bucket " ++ (s'.bucket ++ (": " ++ e'.message))))
      = downloadFailMsg s'.key s'.bucket e'.message := by
        simp [downloadFailMsg, String.append_assoc]
    _ = loaderFailMsg s.key := heq.symm
    _ = "Failed to load file " ++ (s.key ++ " using unstructured loader.") := by
        simp [loaderFailMsg, String.append_assoc]

/-- C3 witness: at a concrete bucket and key, the partitioning-stage
error and the retrieval error are produced, share the kind Error, and
differ in message. -/
theorem C3_witness :
    ((fun (_ : String) (_ : String) => (Except.ok [] : Except JSError (List Nat)))
        "b" "k" = .ok [])
    ∧ ((fun (_ : String) (_ : List Nat) (_ : UnstructuredLoaderOptions) =>
          (Except.error ⟨"Error", "partition detail"⟩ : Except JSError (List Document)))
        "k" [] (S3Loader.loaderOptions ⟨"b", "k", "u", "a"⟩)
        = .error ⟨"Error", "partition detail"⟩)
    ∧ ((fun (_ : String) (_ : String) =>
          (Except.error ⟨"Error", "network down"⟩ : Except JSError (List Nat)))
        "b" "k" = .error ⟨"Error", "network down"⟩)
    ∧ ((S3Loader.load ⟨"b", "k", "u", "a"⟩ (fun _ _ => .ok [])
          (fun _ _ _ => .error ⟨"Error", "partition detail"⟩)).result
        = .error ⟨"Error", "Failed to load file k using unstructured loader."⟩)
    ∧ ((S3Loader.load ⟨"b", "k", "u", "a"⟩ (fun _ _ => .error ⟨"Error", "network down"⟩)
          (fun _ _ _ => .error ⟨"Error", "partition detail"⟩)).result
        = .error ⟨"Error", "Failed to download file k from S3 bucket b: network down"⟩)
    ∧ errNameOf ((S3Loader.load ⟨"b", "k", "u", "a"⟩ (fun _ _ => .ok [])
          (fun _ _ _ => .error ⟨"Error", "partition detail"⟩)).result)
        = errNameOf ((S3Loader.load ⟨"b", "k", "u", "a"⟩
          (fun _ _ => .error ⟨"Error", "network down"⟩)
          (fun _ _ _ => .error ⟨"Error", "partition detail"⟩)).result)
    ∧ ("Failed to load file k using unstructured loader."
        ≠ "Failed to download file k from S3 bucket b: network down") := by
  have h := C3_theorem ⟨"b", "k", "u", "a"⟩ ⟨"b", "k", "u", "a"⟩
    (fun _ _ => .ok []) (fun _ _ => .error ⟨"Error", "network down"⟩)
    (fun _ _ _ => .error ⟨"Error", "partition detail"⟩)
    (fun _ _ _ => .error ⟨"Error", "partition detail"⟩)
    [] ⟨"Error", "partition detail"⟩ ⟨"Error", "network down"⟩ rfl rfl rfl
  exact ⟨rfl, rfl, rfl, h.1, h.2.1, h.2.2.1, h.2.2.2⟩

/-- C7: for every decoded array of (non-null) elements the output is
exactly one record per retained element, in service order, by the very
shape filter-then-map; and for every element the record attributes are
the element metadata with the synthesized category key set to the
element type, the synthesized binding overwriting any category key the
metadata already carried, and every other key reading through to the
spread metadata. -/
theorem C7_theorem (l : UnstructuredWebLoader) (r : HttpResponse) (els : List JValue)
    (el : JValue) (k : String)
    (hok : r.ok = true) (hjson : r.bodyJson = .ok (.arr els))
    (h : els.all (fun e => !e.isNullOrUndefined) = true)
    (hk : k ≠ "category") :
    l.load r = .ok ((els.filter hasStringText).map specRecord)
    ∧ attrGet (specRecord el) "category" = some (getFieldPure el "type")
    ∧ attrGet (specRecord el) k = lookupLast k (spreadFields (getFieldPure el "metadata")) := by
  refine ⟨load_eval l r els hok hjson (all_not_nullOrUndef els h), ?_, ?_⟩
  · exact lookupLast_append_same "category" (getFieldPure el "type")
      (spreadFields (getFieldPure el "metadata"))
  · exact lookupLast_append_other "category" k hk (getFieldPure el "type")
      (spreadFields (getFieldPure el "metadata"))

/-- C7 witness: metadata already carrying category X with element type
Y yields a record whose category attribute reads Y, in order, and
whose page attribute reads through to the metadata. -/
theorem C7_witness :
    (HttpResponse.ok ⟨200, "resp",
        .ok (.arr [.obj [("type", .str "Y"), ("text", .str "hi"),
                         ("metadata", .obj [("category", .str "X"), ("page", .num 2)])]])⟩
      = true)
    ∧ (([JValue.obj [("type", .str "Y"), ("text", .str "hi"),
                     ("metadata", .obj [("category", .str "X"), ("page", .num 2)])]].all
          (fun e => !e.isNullOrUndefined)) = true)
    ∧ (("page" : String) ≠ "category")
    ∧ ((mkUnstructuredWebLoader "doc.pdf" [] {}).load
        ⟨200, "resp",
          .ok (.arr [.obj [("type", .str "Y"), ("text", .str "hi"),
                           ("metadata", .obj [("category", .str "X"), ("page", .num 2)])]])⟩
        = .ok [⟨"hi", [("category", .str "X"), ("page", .num 2), ("category", .str "Y")]⟩])
    ∧ (attrGet (specRecord (.obj [("type", .str "Y"), ("text", .str "hi"),
          ("metadata", .obj [("category", .str "X"), ("page", .num 2)])])) "category"
        = some (.str "Y"))
    ∧ (attrGet (specRecord (.obj [("type", .str "Y"), ("text", .str "hi"),
          ("metadata", .obj [("category", .str "X"), ("page", .num 2)])])) "page"
        = some (.num 2)) := by
  have h := C7_theorem (mkUnstructuredWebLoader "doc.pdf" [] {})
    ⟨200, "resp",
      .ok (.arr [.obj [("type", .str "Y"), ("text", .str "hi"),
                       ("metadata", .obj [("category", .str "X"), ("page", .num 2)])]])⟩
    [.obj [("type", .str "Y"), ("text", .str "hi"),
           ("metadata", .obj [("category", .str "X"), ("page", .num 2)])]]
    (.obj [("type", .str "Y"), ("text", .str "hi"),
           ("metadata", .obj [("category", .str "X"), ("page", .num 2)])])
    "page" rfl rfl rfl (by decide)
  exact ⟨rfl, rfl, by decide, h.1, h.2.1, h.2.2⟩

/-- C9, counterexample: the claim says that for an element whose
metadata is not an object the record attributes contain exactly the
synthesized category key.  But a string metadata spreads its index
properties: with metadata "ab" the attributes carry the keys 0 and 1
besides category. -/
theorem C9_counterexample :
    (mkUnstructuredWebLoader "doc.pdf" [] {}).load
        ⟨200, "resp",
          .ok (.arr [.obj [("type", .str "T"), ("text", .str "hi"),
                           ("metadata", .str "ab")]])⟩
      = .ok [⟨"hi", [("0", .str "a"), ("1", .str "b"), ("category", .str "T")]⟩]
    ∧ attrGet ⟨"hi", [("0", .str "a"), ("1", .str "b"), ("category", .str "T")]⟩ "0"
        = some (.str "a") :=
  ⟨rfl, rfl⟩

/-- C9, amended: for every element whose text is a string and whose
metadata is absent, null, a boolean or a number, load produces the
record without failing and its attributes contain exactly the
synthesized category key (such a metadata spreads no keys); a string
or array metadata instead contributes its index keys, per the
counterexample. -/
theorem C9_theorem (l : UnstructuredWebLoader) (r : HttpResponse)
    (fields : List (String × JValue)) (t : String)
    (htext : getFieldPure (.obj fields) "text" = .str t)
    (hm : spreadsNothing (getFieldPure (.obj fields) "metadata") = true)
    (hok : r.ok = true) (hjson : r.bodyJson = .ok (.arr [.obj fields])) :
    l.load r = .ok [⟨t, [("category", getFieldPure (.obj fields) "type")]⟩] := by
  have h := load_eval l r [.obj fields] hok hjson
    (by intro el hel; simp at hel; subst hel; rfl)
  rw [h]
  simp [List.filter, hasStringText, htext, isStringVal, specRecord, textOf,
    spreadFields_eq_nil _ hm]

/-- C9 witness: an element with no metadata field at all still yields
its record, whose attributes are exactly the category binding. -/
theorem C9_witness :
    (getFieldPure (.obj [("type", .str "Title"), ("text", .str "Hello")]) "text"
        = .str "Hello")
    ∧ (spreadsNothing
        (getFieldPure (.obj [("type", .str "Title"), ("text", .str "Hello")]) "metadata")
        = true)
    ∧ (HttpResponse.ok ⟨200, "resp",
        .ok (.arr [.obj [("type", .str "Title"), ("text", .str "Hello")]])⟩ = true)
    ∧ ((mkUnstructuredWebLoader "doc.pdf" [] {}).load
        ⟨200, "resp", .ok (.arr [.obj [("type", .str "Title"), ("text", .str "Hello")]])⟩
        = .ok [⟨"Hello", [("category", .str "Title")]⟩]) := by
  have h := C9_theorem (mkUnstructuredWebLoader "doc.pdf" [] {})
    ⟨200, "resp", .ok (.arr [.obj [("type", .str "Title"), ("text", .str "Hello")]])⟩
    [("type", .str "Title"), ("text", .str "Hello")] "Hello" rfl rfl rfl rfl
  exact ⟨rfl, rfl, rfl, h⟩

lemma fieldValues_map_field (langs : List String) (nm n : String) :
    fieldValues (langs.map fun s => FormEntry.field nm s) n
      = if nm = n then langs else [] := by
  induction langs with
  | nil => simp [fieldValues]
  | cons a l ih => by_cases h : nm = n <;> simp_all [fieldValues]

lemma fieldValues_nil (n : String) : fieldValues [] n = [] := rfl

lemma fieldValues_append (l1 l2 : List FormEntry) (n : String) :
    fieldValues (l1 ++ l2) n = fieldValues l1 n ++ fieldValues l2 n := by
  simp [fieldValues]

lemma fieldValues_cons_field (nm v : String) (l : List FormEntry) (n : String) :
    fieldValues (FormEntry.field nm v :: l) n
      = (if nm = n then [v] else []) ++ fieldValues l n := by
  by_cases h : nm = n <;> simp [fieldValues, h]

lemma fieldValues_cons_file (nm : String) (c : List Nat) (fn : String)
    (l : List FormEntry) (n : String) :
    fieldValues (FormEntry.file nm c fn :: l) n = fieldValues l n := by
  simp [fieldValues]

lemma fileParts_nil : fileParts [] = [] := rfl

lemma fileParts_append (l1 l2 : List FormEntry) :
    fileParts (l1 ++ l2) = fileParts l1 ++ fileParts l2 := by
  simp [fileParts]

lemma fileParts_cons_field (nm v : String) (l : List FormEntry) :
    fileParts (FormEntry.field nm v :: l) = fileParts l := by
  simp [fileParts]

lemma fileParts_cons_file (nm : String) (c : List Nat) (fn : String) (l : List FormEntry) :
    fileParts (FormEntry.file nm c fn :: l) = (nm, c, fn) :: fileParts l := by
  simp [fileParts]

lemma fileParts_map_field (langs : List String) (nm : String) :
    fileParts (langs.map fun s => FormEntry.field nm s) = [] := by
  induction langs with
  | nil => rfl
  | cons a l ih => simp_all [fileParts]

/-- C2: the single multipart request contains the binary payload as
the unique file part (form field files) carrying the buffer and the
trimmed filename; a strategy field always present and equal to the
configured strategy or hi_res by default; one repeated ocr_languages
entry per language code in order; an encoding field exactly when a
truthy (non-empty) encoding was supplied; each boolean flag field
present with the literal string true exactly when the option is true
and omitted otherwise; and the credential header always sent, as the
empty string when no key was supplied. -/
theorem C2_theorem (filePath : String) (buffer : List Nat)
    (options : UnstructuredLoaderOptions) :
    fileParts (mkUnstructuredWebLoader filePath buffer options).buildFormData
        = [("files", buffer, jsFileName filePath)]
    ∧ fieldValues (mkUnstructuredWebLoader filePath buffer options).buildFormData "strategy"
        = [options.strategy.getD "hi_res"]
    ∧ fieldValues (mkUnstructuredWebLoader filePath buffer options).buildFormData "ocr_languages"
        = options.ocrLanguages.getD []
    ∧ fieldValues (mkUnstructuredWebLoader filePath buffer options).buildFormData "encoding"
        = (match options.encoding with
           | some e => if e = "" then [] else [e]
           | none => [])
    ∧ fieldValues (mkUnstructuredWebLoader filePath buffer options).buildFormData "coordinates"
        = (if options.coordinates = some true then ["true"] else [])
    ∧ fieldValues (mkUnstructuredWebLoader filePath buffer options).buildFormData
          "pdf_infer_table_structure"
        = (if options.pdfInferTableStructure = some true then ["true"] else [])
    ∧ fieldValues (mkUnstructuredWebLoader filePath buffer options).buildFormData "xml_keep_tags"
        = (if options.xmlKeepTags = some true then ["true"] else [])
    ∧ (mkUnstructuredWebLoader filePath buffer options).buildRequest.headers
        = [("UNSTRUCTURED-API-KEY", options.apiKey.getD "")]
    ∧ (mkUnstructuredWebLoader filePath buffer options).buildRequest.url
        = options.apiUrl.getD "https://api.unstructured.io/general/v0/general" := by
  rcases options with ⟨k, u, st, enc, ocr, co, pdf, xml⟩
  refine ⟨?_, ?_, ?_, ?_, ?_, ?_, ?_, rfl, rfl⟩ <;>
    rcases enc with _ | e <;>
    simp only [mkUnstructuredWebLoader, UnstructuredWebLoader.buildFormData] <;>
    (try split_ifs) <;>
    simp_all [fieldValues_append, fieldValues_cons_field, fieldValues_cons_file,
      fieldValues_nil, fieldValues_map_field, fileParts_append, fileParts_cons_field,
      fileParts_cons_file, fileParts_nil, fileParts_map_field]

/-- C8: for every key containing a path separator, the outgoing
multipart file part carries only the final path segment of the key as
its filename (a string that is never the full path-like key), while
the orchestrator issues its single get-object request with the
original untrimmed key and passes that same untrimmed key to the
partitioning stage as the logical file path. -/
theorem C8_theorem (s : S3Loader) (buffer : List Nat) (options : UnstructuredLoaderOptions)
    (getObject : String → String → Except JSError (List Nat))
    (loaderLoad : String → List Nat → UnstructuredLoaderOptions → Except JSError (List Document))
    (h : '/' ∈ s.key.data) :
    fileParts (mkUnstructuredWebLoader s.key buffer options).buildFormData
        = [("files", buffer, jsFileName s.key)]
    ∧ jsFileName s.key ≠ s.key
    ∧ (s.load getObject loaderLoad).fetched = [(s.bucket, s.key)]
    ∧ ((s.load getObject loaderLoad).partitioned.all (fun p => p == s.key)) = true := by
  refine ⟨?_, ?_, ?_, ?_⟩
  · rcases options with ⟨k, u, st, enc, ocr, co, pdf, xml⟩
    rcases enc with _ | e <;>
      simp only [mkUnstructuredWebLoader, UnstructuredWebLoader.buildFormData] <;>
      (try split_ifs) <;>
      simp_all [fileParts_append, fileParts_cons_field, fileParts_cons_file,
        fileParts_nil, fileParts_map_field]
  · intro heq
    have h2 := jsFileName_no_slash s.key
    rw [heq] at h2
    exact h2 h
  · rcases hf : getObject s.bucket s.key with e | data
    · simp [S3Loader.load, hf]
    · rcases hl : loaderLoad s.key data s.loaderOptions with e | docs <;>
        simp [S3Loader.load, hf, hl]
  · rcases hf : getObject s.bucket s.key with e | data
    · simp [S3Loader.load, hf]
    · rcases hl : loaderLoad s.key data s.loaderOptions with e | docs <;>
        simp [S3Loader.load, hf, hl]

/-- C8 witness: the path-like key folder/sub/report.pdf is fetched and
partitioned untrimmed, while the wire filename is report.pdf. -/
theorem C8_witness :
    ('/' ∈ ("folder/sub/report.pdf" : String).data)
    ∧ (fileParts (mkUnstructuredWebLoader "folder/sub/report.pdf" [7] {}).buildFormData
        = [("files", [7], "report.pdf")])
    ∧ ("report.pdf" : String) ≠ "folder/sub/report.pdf"
    ∧ ((S3Loader.load ⟨"my-bucket", "folder/sub/report.pdf", "u", "a"⟩
          (fun _ _ => .ok []) (fun _ _ _ => .ok [])).fetched
        = [("my-bucket", "folder/sub/report.pdf")])
    ∧ (((S3Loader.load ⟨"my-bucket", "folder/sub/report.pdf", "u", "a"⟩
          (fun _ _ => .ok []) (fun _ _ _ => .ok [])).partitioned.all
            (fun p => p == "folder/sub/report.pdf")) = true) := by
  have h := C8_theorem ⟨"my-bucket", "folder/sub/report.pdf", "u", "a"⟩ [7] {}
    (fun _ _ => .ok []) (fun _ _ _ => .ok []) (by decide)
  exact ⟨by decide, h.1, h.2.1, h.2.2.1, h.2.2.2⟩
